import Mathlib

/-!
Verification of the login/signup form in `src/main.py`.

The form is a single-screen UI state machine. Its mutable state is:
`is_login` (the mode flag set in `AuthForm.__init__` and flipped by
`toggle_mode`), the four text-field values, the visibility flags of the
email and confirm-password fields, the submit-button label and the toggle
prompt text (all created in `AuthForm.initialize_fields`).

Python widget `value` attributes are modelled as `String`; the source
tests emptiness by truthiness (`if not self.name_field.value`), which for
a string value is the empty-string test.  Showing a snackbar
(`show_error` / `show_success`) is modelled as returning a `Notification`
alongside the (unchanged) state.
-/

/-- The two form modes. The source stores this as the boolean `is_login`. -/
inductive Mode where
  | Login
  | Signup
deriving DecidableEq

/-- The four user-entered text values (spec data model `FieldSet`). -/
structure FieldSet where
  username : String
  email : String
  password : String
  confirmPassword : String
deriving DecidableEq

/-- Result of validation: `Ok` or a single error message. -/
inductive ValidationResult where
  | Ok
  | Error (message : String)
deriving DecidableEq

/-- A transient snackbar message: `show_error` or `show_success`. -/
inductive Notification where
  | Error (text : String)
  | Success (text : String)
deriving DecidableEq

/-- The mutable state of `AuthForm`: mode flag, the `value` of each of the
four text fields, the `visible` flag of the email and confirm-password
fields, the submit-button `text` and the toggle prompt `value`. -/
structure AuthForm where
  is_login : Bool
  name_value : String
  email_value : String
  pass_value : String
  confirm_pass_value : String
  email_visible : Bool
  confirm_pass_visible : Bool
  submit_button_text : String
  toggle_text_value : String
deriving DecidableEq

/-- The mode of a form state, read off the `is_login` flag. -/
def AuthForm.mode (s : AuthForm) : Mode :=
  if s.is_login then Mode.Login else Mode.Signup

/-- The `FieldSet` held by a form state. -/
def AuthForm.fields (s : AuthForm) : FieldSet :=
  { username := s.name_value
  , email := s.email_value
  , password := s.pass_value
  , confirmPassword := s.confirm_pass_value }

/-- The state built by `AuthForm.__init__` / `AuthForm.initialize_fields`
(main.py lines 35-57): `is_login = True`, every field value empty, the
email and confirm-password fields hidden, submit label `"Login"`, toggle
prompt `"New here? Sign Up!"`. -/
def initialize_fields : AuthForm :=
  { is_login := true
  , name_value := ""
  , email_value := ""
  , pass_value := ""
  , confirm_pass_value := ""
  , email_visible := false
  , confirm_pass_visible := false
  , submit_button_text := "Login"
  , toggle_text_value := "New here? Sign Up!" }

/-- The validation chain of `AuthForm.validate_and_submit`
(main.py lines 105-118), as the pure function `(mode, fields)`: each
failing check returns its error at once (the source `return`s out of the
handler), the signup-only checks run only when `is_login` is false, and
falling through every check yields `Ok`. -/
def validate (mode : Mode) (f : FieldSet) : ValidationResult :=
  if f.username = "" then ValidationResult.Error "Please enter username"
  else if f.password = "" then ValidationResult.Error "Please enter password"
  else
    match mode with
    | Mode.Signup =>
        if f.email = "" then ValidationResult.Error "Please enter email"
        else if f.password ≠ f.confirmPassword then
          ValidationResult.Error "Passwords don\x27t match!"
        else ValidationResult.Ok
    | Mode.Login => ValidationResult.Ok

/-- `AuthForm.validate_and_submit` (main.py lines 103-121).  Each failed
check shows an error snackbar and returns; otherwise a success snackbar
with `"Login"` or `"Signup"` is shown.  The handler never assigns to any
state, so the returned state is the input state on every path. -/
def validate_and_submit (s : AuthForm) : AuthForm × Notification :=
  if s.name_value = "" then (s, Notification.Error "Please enter username")
  else if s.pass_value = "" then (s, Notification.Error "Please enter password")
  else
    if s.is_login = false then
      if s.email_value = "" then (s, Notification.Error "Please enter email")
      else if s.pass_value ≠ s.confirm_pass_value then
        (s, Notification.Error "Passwords don\x27t match!")
      else
        (s, Notification.Success ((if s.is_login then "Login" else "Signup") ++ " successful!"))
    else
      (s, Notification.Success ((if s.is_login then "Login" else "Signup") ++ " successful!"))

/-- `AuthForm.toggle_mode` (main.py lines 141-153): flip `is_login`, set
the two visibility flags to `not is_login` (the new value), and set the
submit label and toggle prompt from the new value. -/
def toggle_mode (s : AuthForm) : AuthForm :=
  let is_login := !s.is_login
  { s with
    is_login := is_login
  , confirm_pass_visible := !is_login
  , email_visible := !is_login
  , submit_button_text := if is_login then "Login" else "Sign Up"
  , toggle_text_value :=
      if is_login then "New here? Sign Up!" else "Already have an account? Login!" }

/-- Names of the four text fields a user can type into. -/
inductive FieldName where
  | username
  | email
  | password
  | confirmPassword
deriving DecidableEq

/-- User input into one text field overwrites that value and nothing else. -/
def set_field (s : AuthForm) (n : FieldName) (v : String) : AuthForm :=
  match n with
  | FieldName.username => { s with name_value := v }
  | FieldName.email => { s with email_value := v }
  | FieldName.password => { s with pass_value := v }
  | FieldName.confirmPassword => { s with confirm_pass_value := v }

/-- The discrete events the UI can deliver to the form. -/
inductive Event where
  | toggle
  | submit
  | setField (n : FieldName) (v : String)

/-- One event-handler step of the form. -/
def step (s : AuthForm) (e : Event) : AuthForm :=
  match e with
  | Event.toggle => toggle_mode s
  | Event.submit => (validate_and_submit s).1
  | Event.setField n v => set_field s n v

/-- The states the running program can be in: the initial state and
everything obtained from it by event-handler steps. -/
inductive Reachable : AuthForm → Prop where
  | init : Reachable initialize_fields
  | next : ∀ s e, Reachable s → Reachable (step s e)

/-- The presentation-derived parts of the state agree with the mode:
visibility flags, submit label and toggle prompt are the canonical
functions of `is_login`. -/
def consistent (s : AuthForm) : Prop :=
  s.email_visible = !s.is_login ∧
  s.confirm_pass_visible = !s.is_login ∧
  s.submit_button_text = (if s.is_login then "Login" else "Sign Up") ∧
  s.toggle_text_value =
    (if s.is_login then "New here? Sign Up!" else "Already have an account? Login!")

lemma consistent_initialize_fields : consistent initialize_fields :=
  ⟨rfl, rfl, rfl, rfl⟩

lemma consistent_toggle_mode (s : AuthForm) : consistent (toggle_mode s) :=
  ⟨rfl, rfl, rfl, rfl⟩

lemma validate_and_submit_fst (s : AuthForm) : (validate_and_submit s).1 = s := by
  unfold validate_and_submit
  split_ifs <;> rfl

lemma consistent_step (s : AuthForm) (e : Event) (h : consistent s) :
    consistent (step s e) := by
  cases e with
  | toggle => exact consistent_toggle_mode s
  | submit => simpa [step, validate_and_submit_fst] using h
  | setField n v =>
      obtain ⟨h1, h2, h3, h4⟩ := h
      cases n <;> exact ⟨h1, h2, h3, h4⟩

lemma reachable_consistent (s : AuthForm) (h : Reachable s) : consistent s := by
  induction h with
  | init => exact consistent_initialize_fields
  | next s e _ ih => exact consistent_step s e ih

/-- C1: for every mode and every FieldSet, `validate` evaluates its rules in
the stated order with short-circuit (first failure wins): empty username,
then empty password, then — in Signup mode only — empty email, then
mismatching confirm password; otherwise `Ok`.  Exactly one error message is
produced per evaluation. -/
theorem validate_rule_order (m : Mode) (f : FieldSet) :
    (f.username = "" → validate m f = ValidationResult.Error "Please enter username") ∧
    (f.username ≠ "" → f.password = "" →
      validate m f = ValidationResult.Error "Please enter password") ∧
    (f.username ≠ "" → f.password ≠ "" → m = Mode.Signup → f.email = "" →
      validate m f = ValidationResult.Error "Please enter email") ∧
    (f.username ≠ "" → f.password ≠ "" → m = Mode.Signup → f.email ≠ "" →
      f.password ≠ f.confirmPassword →
      validate m f = ValidationResult.Error "Passwords don\x27t match!") ∧
    (f.username ≠ "" → f.password ≠ "" →
      (m = Mode.Login ∨ (f.email ≠ "" ∧ f.password = f.confirmPassword)) →
      validate m f = ValidationResult.Ok) := by
  refine ⟨?_, ?_, ?_, ?_, ?_⟩
  · intro h
    simp [validate, h]
  · intro h1 h2
    simp [validate, h1, h2]
  · intro h1 h2 hm h3
    subst hm
    simp [validate, h1, h2, h3]
  · intro h1 h2 hm h3 h4
    subst hm
    simp [validate, h1, h2, h3, h4]
  · intro h1 h2 hc
    rcases hc with hm | ⟨h3, h4⟩
    · subst hm
      simp [validate, h1, h2]
    · have h5 : f.confirmPassword ≠ "" := h4 ▸ h2
      cases m <;> simp [validate, h1, h2, h3, h4, h5]

/-- C1 witness: the first rule fires on the all-empty FieldSet. -/
theorem validate_rule_order_witness :
    validate Mode.Login ⟨"", "", "", ""⟩ = ValidationResult.Error "Please enter username" :=
  (validate_rule_order Mode.Login ⟨"", "", "", ""⟩).1 rfl

/-- C2: `submit` emits exactly one notification, determined by `validate` on
the current mode and fields: `Notification.Error msg` when validation fails
with `msg`, and `Notification.Success (actionLabel ++ " successful!")` when
it returns `Ok`, with `actionLabel` `"Login"` in Login mode and `"Signup"`
in Signup mode. -/
theorem validate_and_submit_notification (s : AuthForm) :
    (validate_and_submit s).2 =
      (match validate s.mode s.fields with
       | ValidationResult.Error msg => Notification.Error msg
       | ValidationResult.Ok =>
           Notification.Success
             ((if s.mode = Mode.Login then "Login" else "Signup") ++ " successful!")) := by
  rcases s with ⟨il, nv, ev, pv, cv, evis, cvis, sbt, ttv⟩
  cases il <;>
    simp only [validate_and_submit, validate, AuthForm.mode, AuthForm.fields] <;>
    split_ifs <;> simp_all

/-- C3: `validate` accepts Login inputs with non-empty username and password,
and Signup inputs with non-empty username, email and password whose confirm
password matches. -/
theorem validate_ok_cases (f : FieldSet) :
    (f.username ≠ "" → f.password ≠ "" → validate Mode.Login f = ValidationResult.Ok) ∧
    (f.username ≠ "" → f.email ≠ "" → f.password ≠ "" →
      f.password = f.confirmPassword → validate Mode.Signup f = ValidationResult.Ok) := by
  constructor
  · intro h1 h2
    simp [validate, h1, h2]
  · intro h1 h2 h3 h4
    have h5 : f.confirmPassword ≠ "" := h4 ▸ h3
    simp [validate, h1, h2, h3, h4, h5]

/-- C3 witness: the two example inputs of the spec validate to `Ok`. -/
theorem validate_ok_cases_witness :
    validate Mode.Login ⟨"a", "", "b", ""⟩ = ValidationResult.Ok ∧
    validate Mode.Signup ⟨"a", "e@x.com", "p", "p"⟩ = ValidationResult.Ok :=
  ⟨(validate_ok_cases ⟨"a", "", "b", ""⟩).1 (by decide) (by decide),
   (validate_ok_cases ⟨"a", "e@x.com", "p", "p"⟩).2 (by decide) (by decide) (by decide) rfl⟩

/-- C4: `toggle` flips the mode, makes the email and confirm-password
fields visible exactly when the new mode is Signup, sets the submit label
and toggle prompt to the texts of the new mode, and leaves all four stored
field values unchanged. -/
theorem toggle_mode_spec (s : AuthForm) :
    (toggle_mode s).mode =
      (match s.mode with | Mode.Login => Mode.Signup | Mode.Signup => Mode.Login) ∧
    ((toggle_mode s).email_visible = true ↔ (toggle_mode s).mode = Mode.Signup) ∧
    ((toggle_mode s).confirm_pass_visible = true ↔ (toggle_mode s).mode = Mode.Signup) ∧
    (toggle_mode s).submit_button_text =
      (if (toggle_mode s).mode = Mode.Login then "Login" else "Sign Up") ∧
    (toggle_mode s).toggle_text_value =
      (if (toggle_mode s).mode = Mode.Login then "New here? Sign Up!"
       else "Already have an account? Login!") ∧
    (toggle_mode s).name_value = s.name_value ∧
    (toggle_mode s).email_value = s.email_value ∧
    (toggle_mode s).pass_value = s.pass_value ∧
    (toggle_mode s).confirm_pass_value = s.confirm_pass_value := by
  rcases s with ⟨il, nv, ev, pv, cv, evis, cvis, sbt, ttv⟩
  cases il <;> simp [toggle_mode, AuthForm.mode]

/-- C5: `submit` changes nothing: the state it returns is the input state,
so mode, the four stored field values, the visibility flags and the label
texts are all unchanged, whether validation failed or succeeded. -/
theorem validate_and_submit_frame (s : AuthForm) :
    (validate_and_submit s).1 = s ∧
    (validate_and_submit s).1.mode = s.mode ∧
    (validate_and_submit s).1.fields = s.fields ∧
    (validate_and_submit s).1.email_visible = s.email_visible ∧
    (validate_and_submit s).1.confirm_pass_visible = s.confirm_pass_visible ∧
    (validate_and_submit s).1.submit_button_text = s.submit_button_text ∧
    (validate_and_submit s).1.toggle_text_value = s.toggle_text_value := by
  simp [validate_and_submit_fst]

/-- C6: toggling twice restores the mode from any state; and from any state
the running program can be in (where the labels are the canonical texts of
the current mode), it also restores the submit-button label and the toggle
prompt text. -/
theorem toggle_mode_twice_restores (s : AuthForm) :
    (toggle_mode (toggle_mode s)).mode = s.mode ∧
    (Reachable s →
      (toggle_mode (toggle_mode s)).submit_button_text = s.submit_button_text ∧
      (toggle_mode (toggle_mode s)).toggle_text_value = s.toggle_text_value) := by
  constructor
  · rcases s with ⟨il, nv, ev, pv, cv, evis, cvis, sbt, ttv⟩
    cases il <;> simp [toggle_mode, AuthForm.mode]
  · intro hr
    obtain ⟨-, -, h3, h4⟩ := reachable_consistent s hr
    rw [h3, h4]
    rcases s with ⟨il, nv, ev, pv, cv, evis, cvis, sbt, ttv⟩
    cases il <;> simp [toggle_mode]

/-- C6 witness: double toggle from the initial state. -/
theorem toggle_mode_twice_restores_witness :
    (toggle_mode (toggle_mode initialize_fields)).mode = initialize_fields.mode ∧
    (toggle_mode (toggle_mode initialize_fields)).submit_button_text =
      initialize_fields.submit_button_text ∧
    (toggle_mode (toggle_mode initialize_fields)).toggle_text_value =
      initialize_fields.toggle_text_value :=
  ⟨(toggle_mode_twice_restores initialize_fields).1,
   (toggle_mode_twice_restores initialize_fields).2 Reachable.init⟩

/-- The invariant of C7: the email and confirm-password fields are visible
exactly when the mode is Signup. -/
def visibility_invariant (s : AuthForm) : Prop :=
  (s.email_visible = true ↔ s.mode = Mode.Signup) ∧
  (s.confirm_pass_visible = true ↔ s.mode = Mode.Signup)

/-- C7: the visibility invariant holds in the initial state (mode Login,
all four field values empty, both fields hidden), is preserved by every
operation (toggle, submit, field mutation), and after one toggle from the
initial state the mode is Signup, the submit label is `"Sign Up"`, the
toggle prompt is `"Already have an account? Login!"` and both fields are
visible. -/
theorem visibility_invariant_spec :
    (visibility_invariant initialize_fields ∧
      initialize_fields.mode = Mode.Login ∧
      initialize_fields.name_value = "" ∧
      initialize_fields.email_value = "" ∧
      initialize_fields.pass_value = "" ∧
      initialize_fields.confirm_pass_value = "" ∧
      initialize_fields.email_visible = false ∧
      initialize_fields.confirm_pass_visible = false) ∧
    (∀ s e, visibility_invariant s → visibility_invariant (step s e)) ∧
    ((toggle_mode initialize_fields).mode = Mode.Signup ∧
      (toggle_mode initialize_fields).submit_button_text = "Sign Up" ∧
      (toggle_mode initialize_fields).toggle_text_value =
        "Already have an account? Login!" ∧
      (toggle_mode initialize_fields).email_visible = true ∧
      (toggle_mode initialize_fields).confirm_pass_visible = true) := by
  refine ⟨⟨?_, rfl, rfl, rfl, rfl, rfl, rfl, rfl⟩, ?_, rfl, rfl, rfl, rfl, rfl⟩
  · simp [visibility_invariant, initialize_fields, AuthForm.mode]
  intro s e h
  cases e with
  | toggle =>
      rcases s with ⟨il, nv, ev, pv, cv, evis, cvis, sbt, ttv⟩
      cases il <;> simp [step, toggle_mode, AuthForm.mode, visibility_invariant]
  | submit => simpa [step, validate_and_submit_fst] using h
  | setField n v =>
      cases n <;> simpa [step, set_field, visibility_invariant, AuthForm.mode] using h

/-- C7 witness: preservation applied to the initial state and a toggle. -/
theorem visibility_invariant_spec_witness :
    visibility_invariant (step initialize_fields Event.toggle) :=
  visibility_invariant_spec.2.1 initialize_fields Event.toggle
    visibility_invariant_spec.1.1

/-- C8: `validate` is modelled as a total Lean function, so it terminates
with a `ValidationResult` on every input, performs no I/O and raises no
exception; it is deterministic (equal inputs give equal results), and its
result ranges over `Ok` and the four fixed error messages. -/
theorem validate_pure_total (m m' : Mode) (f f' : FieldSet) :
    (m = m' → f = f' → validate m f = validate m' f') ∧
    (validate m f = ValidationResult.Ok ∨
      validate m f = ValidationResult.Error "Please enter username" ∨
      validate m f = ValidationResult.Error "Please enter password" ∨
      validate m f = ValidationResult.Error "Please enter email" ∨
      validate m f = ValidationResult.Error "Passwords don\x27t match!") := by
  constructor
  · intro h1 h2
    rw [h1, h2]
  · cases m with
    | Login =>
        simp only [validate]
        split_ifs <;> simp
    | Signup =>
        simp only [validate]
        split_ifs <;> simp

/-- C8 witness: determinism applied at a concrete input. -/
theorem validate_pure_total_witness :
    validate Mode.Login ⟨"a", "", "b", ""⟩ = validate Mode.Login ⟨"a", "", "b", ""⟩ :=
  (validate_pure_total Mode.Login Mode.Login ⟨"a", "", "b", ""⟩ ⟨"a", "", "b", ""⟩).1
    rfl rfl

/-- C9: in Login mode `validate` never reads email or confirmPassword: any
two FieldSets agreeing on username and password validate identically, so
stale Signup-mode values cannot affect a Login-mode submit. -/
theorem validate_login_noninterference (f g : FieldSet)
    (hu : f.username = g.username) (hp : f.password = g.password) :
    validate Mode.Login f = validate Mode.Login g := by
  simp [validate, hu, hp]

/-- C9 witness: a stale mismatching confirmPassword and stale email give
the same Login-mode result as cleared ones. -/
theorem validate_login_noninterference_witness :
    validate Mode.Login ⟨"bob", "old@x.com", "x", "mismatch"⟩ =
      validate Mode.Login ⟨"bob", "", "x", ""⟩ :=
  validate_login_noninterference ⟨"bob", "old@x.com", "x", "mismatch"⟩
    ⟨"bob", "", "x", ""⟩ rfl rfl

/-- C10: there is no dedicated emptiness check for confirmPassword: in
Signup mode, with username, password and email non-empty and
confirmPassword empty, `validate` reports the password mismatch. -/
theorem confirm_password_empty_gives_mismatch (f : FieldSet)
    (h1 : f.username ≠ "") (h2 : f.password ≠ "") (h3 : f.email ≠ "")
    (h4 : f.confirmPassword = "") :
    validate Mode.Signup f = ValidationResult.Error "Passwords don\x27t match!" := by
  have h5 : f.password ≠ f.confirmPassword := by
    rw [h4]
    exact h2
  simp [validate, h1, h2, h3, h5]

/-- C10 witness: an otherwise complete signup with empty confirmPassword. -/
theorem confirm_password_empty_gives_mismatch_witness :
    validate Mode.Signup ⟨"a", "e@x.com", "p", ""⟩ =
      ValidationResult.Error "Passwords don\x27t match!" :=
  confirm_password_empty_gives_mismatch ⟨"a", "e@x.com", "p", ""⟩
    (by decide) (by decide) (by decide) rfl
